import Mathlib

/-!
Shallow embedding of the fetch-aggregate-cache-serve backend
(`backend/services/repository_service.py`, `backend/services/gist_service.py`,
`backend/services/cache_service.py`, `backend/controllers/repository_controller.py`,
`backend/controllers/gist_controller.py`) together with proofs about its
query pipeline (filter, sort, paginate), cache invalidation, rate-limit gate
and parallel collection behaviour.

Modelling conventions:
* Python `str` is Lean `String`; `Optional[str]` is `Option String`;
  Python `int` is `Int` (`Nat` for identifiers and lengths where the code
  only ever sees non-negative values).
* Python truthiness of an optional string (`if s:`) is `pyOptStrTruthy`.
* Python `needle in haystack` on strings is `pyIn` (substring test).
* Python `list.sort(key=k, reverse=r)` is a stable merge sort with the
  boolean order `k a ≤ k b` (resp. `k b ≤ k a` when `reverse=True`), which
  matches CPython's stable Timsort semantics.
* Python slicing `l[a:b]` (step 1, possibly negative bounds) is `pySlice`.
* A `ZeroDivisionError` escaping `paginate_*` is modelled by `Option.none`
  (the controllers map any such exception to a 500 response).
* The Flask-Caching backend is modelled as an association list from string
  keys to values; `get` returns a (de-serialised) copy of the stored value,
  which is the behaviour of the pickling backends the app configures.
-/

/-- Truthiness of a Python `Optional[str]`: `None` and `""` are falsy. -/
def pyOptStrTruthy (s : Option String) : Bool :=
  match s with
  | none => false
  | some s => !(s == "")

/-- Boolean test that `pre` is a prefix of `l` (as lists of characters). -/
def listPrefixB : List Char → List Char → Bool
  | [], _ => true
  | _ :: _, [] => false
  | a :: as, b :: bs => a == b && listPrefixB as bs

/-- Boolean substring test on lists of characters: does `n` occur
contiguously inside `h`?  Models Python `n in h` for strings. -/
def listSubB (n : List Char) : List Char → Bool
  | [] => listPrefixB n []
  | c :: t => listPrefixB n (c :: t) || listSubB n t

/-- Python `needle in haystack` for strings. -/
def pyIn (needle haystack : String) : Bool :=
  listSubB needle.data haystack.data

/-- Python `s.strip()`: drop leading and trailing whitespace. -/
def pyStrip (s : String) : String :=
  String.mk (((s.data.dropWhile Char.isWhitespace).reverse.dropWhile
    Char.isWhitespace).reverse)

/-- The `Repository` dataclass of `backend/models/repository.py`. -/
structure Repository where
  id : Int
  name : String
  full_name : String
  description : Option String := none
  private_ : Bool := false
  html_url : Option String := none
  clone_url : Option String := none
  ssh_url : Option String := none
  language : Option String := none
  stargazers_count : Int := 0
  watchers_count : Int := 0
  forks_count : Int := 0
  size : Int := 0
  default_branch : Option String := none
  created_at : Option String := none
  updated_at : Option String := none
  pushed_at : Option String := none
  archived : Bool := false
  disabled : Bool := false
  fork : Bool := false
  topics : List String := []
  visibility : String := "public"
  owner_login : Option String := none
  owner_type : Option String := none
deriving DecidableEq

/-- The `GistFile` dataclass of `backend/models/gist.py`. -/
structure GistFile where
  filename : String
  type : String
  language : Option String := none
  raw_url : Option String := none
  size : Int := 0
  truncated : Bool := false
  content : Option String := none
deriving DecidableEq

/-- The `Gist` dataclass of `backend/models/gist.py` (`__post_init__`
normalises `files=None` to `[]`, so `files` is a plain list here). -/
structure Gist where
  id : String
  description : Option String := none
  public : Bool := true
  html_url : Option String := none
  git_pull_url : Option String := none
  git_push_url : Option String := none
  created_at : Option String := none
  updated_at : Option String := none
  comments : Int := 0
  files : List GistFile := []
  owner_login : Option String := none
  owner_avatar_url : Option String := none
  truncated : Bool := false
deriving DecidableEq

/-- `RepositoryService.filter_repositories`: identity for an empty or
whitespace-only query, otherwise a case-insensitive substring match on
name, description, language and topics. -/
def filter_repositories (repositories : List Repository)
    (search_query : Option String) : List Repository :=
  if !(pyOptStrTruthy search_query) || (pyStrip (search_query.getD "") == "") then
    repositories
  else
    let q := (pyStrip (search_query.getD "")).toLower
    repositories.filter (fun repo =>
      pyIn q repo.name.toLower ||
      (pyOptStrTruthy repo.description && pyIn q (repo.description.getD "").toLower) ||
      (pyOptStrTruthy repo.language && pyIn q (repo.language.getD "").toLower) ||
      repo.topics.any (fun topic => pyIn q topic.toLower))

/-- `GistService.filter_gists`: identity for an empty or whitespace-only
query, otherwise a case-insensitive substring match on description,
filenames and file languages. -/
def filter_gists (gists : List Gist) (search_query : Option String) : List Gist :=
  if !(pyOptStrTruthy search_query) || (pyStrip (search_query.getD "") == "") then
    gists
  else
    let q := (pyStrip (search_query.getD "")).toLower
    gists.filter (fun gist =>
      (pyOptStrTruthy gist.description && pyIn q (gist.description.getD "").toLower) ||
      gist.files.any (fun file => pyIn q file.filename.toLower) ||
      gist.files.any (fun file =>
        pyOptStrTruthy file.language && pyIn q (file.language.getD "").toLower))

/-- Python `list.sort(key=key, reverse=reverse)`: a stable sort by the key.
With `reverse=True` CPython compares reversed but keeps ties in their
original relative order, which is exactly a stable merge sort with the
order `key b ≤ key a`. -/
def pySortKeyed {α K : Type} [LinearOrder K] (l : List α) (key : α → K)
    (reverse : Bool) : List α :=
  if reverse then l.mergeSort (fun a b => decide (key b ≤ key a))
  else l.mergeSort (fun a b => decide (key a ≤ key b))

/-- `RepositoryService.sort_repositories`: `table_sort` (when truthy)
overrides `sort` and takes its direction from `table_sort_direction`;
otherwise the named default sort is applied descending.  Unrecognised keys
fall through to the final `else` (sort by `updated_at or ''`, descending). -/
def sort_repositories (repositories : List Repository) (sort : String)
    (table_sort : Option String) (table_sort_direction : String) :
    List Repository :=
  let useTable := pyOptStrTruthy table_sort
  let sort_key := if useTable then table_sort.getD "" else sort
  let reverse := if useTable then table_sort_direction == "desc" else true
  if sort_key = "name" then
    pySortKeyed repositories (fun r => r.name.toLower) reverse
  else if sort_key = "language" then
    pySortKeyed repositories (fun r => (r.language.getD "").toLower) reverse
  else if sort_key = "stargazers_count" ∨ sort_key = "stars" then
    pySortKeyed repositories (fun r => r.stargazers_count) reverse
  else if sort_key = "forks_count" ∨ sort_key = "forks" then
    pySortKeyed repositories (fun r => r.forks_count) reverse
  else if sort_key = "size" then
    pySortKeyed repositories (fun r => r.size) reverse
  else if sort_key = "created_at" ∨ sort_key = "created" then
    pySortKeyed repositories (fun r => r.created_at.getD "") reverse
  else if sort_key = "updated_at" ∨ sort_key = "updated" then
    pySortKeyed repositories (fun r => r.updated_at.getD "") reverse
  else if sort_key = "pushed_at" ∨ sort_key = "pushed" then
    pySortKeyed repositories (fun r => r.pushed_at.getD "") reverse
  else
    pySortKeyed repositories (fun r => r.updated_at.getD "") true

/-- `GistService.sort_gists`, same dispatch structure as the repository
sort but with the gist-specific keys. -/
def sort_gists (gists : List Gist) (sort : String) (table_sort : Option String)
    (table_sort_direction : String) : List Gist :=
  let useTable := pyOptStrTruthy table_sort
  let sort_key := if useTable then table_sort.getD "" else sort
  let reverse := if useTable then table_sort_direction == "desc" else true
  if sort_key = "description" then
    pySortKeyed gists (fun g => (g.description.getD "").toLower) reverse
  else if sort_key = "comments" then
    pySortKeyed gists (fun g => g.comments) reverse
  else if sort_key = "files" then
    pySortKeyed gists (fun g => g.files.length) reverse
  else if sort_key = "public" then
    pySortKeyed gists (fun g => g.public) reverse
  else if sort_key = "created_at" ∨ sort_key = "created" then
    pySortKeyed gists (fun g => g.created_at.getD "") reverse
  else if sort_key = "updated_at" ∨ sort_key = "updated" then
    pySortKeyed gists (fun g => g.updated_at.getD "") reverse
  else
    pySortKeyed gists (fun g => g.updated_at.getD "") true

/-- The pagination dictionary built by `paginate_repositories` /
`paginate_gists`. -/
structure PaginationInfo where
  page : Int
  per_page : Int
  total_count : Int
  total_pages : Int
  has_next : Bool
  has_prev : Bool
deriving DecidableEq

/-- Normalisation of one Python slice bound against a list of length `n`:
a non-negative bound is capped at `n`, a negative bound counts from the
end (clamped at `0`). -/
def pyIndex (n : Nat) (i : Int) : Nat :=
  if 0 ≤ i then min i.toNat n else n - min n i.natAbs

/-- Python `l[a:b]` with step 1. -/
def pySlice {α : Type} (l : List α) (a b : Int) : List α :=
  let s := pyIndex l.length a
  let e := pyIndex l.length b
  (l.drop s).take (e - s)

/-- Common body of `RepositoryService.paginate_repositories` and
`GistService.paginate_gists` (the two are textually identical up to the
item type): cap `per_page` at 100 (no lower bound!), slice
`[start:start+per_page]`, and build the pagination dictionary.
`none` models the `ZeroDivisionError` raised by the `total_pages`
expression when `per_page == 0` and the collection is non-empty. -/
def paginateList {α : Type} (l : List α) (page per_page : Int) :
    Option (List α × PaginationInfo) :=
  let pp := min per_page 100
  let start_idx := (page - 1) * pp
  let end_idx := start_idx + pp
  let items := pySlice l start_idx end_idx
  if 0 < l.length ∧ pp = 0 then none
  else some (items,
    { page := page
      per_page := pp
      total_count := (l.length : Int)
      total_pages :=
        if 0 < l.length then Int.fdiv ((l.length : Int) + pp - 1) pp else 1
      has_next := decide (end_idx < (l.length : Int))
      has_prev := decide (1 < page) })

/-- `RepositoryService.paginate_repositories`. -/
def paginate_repositories (repositories : List Repository) (page : Int)
    (per_page : Int) : Option (List Repository × PaginationInfo) :=
  paginateList repositories page per_page

/-- `GistService.paginate_gists`. -/
def paginate_gists (gists : List Gist) (page : Int) (per_page : Int) :
    Option (List Gist × PaginationInfo) :=
  paginateList gists page per_page

/-- A value stored in the per-user cache: the rate-limit gate stores a
boolean, the repository controller stores the raw repository collection,
the gist controller stores the gist collection. -/
inductive CacheVal where
  | vbool : Bool → CacheVal
  | vrepos : List Repository → CacheVal
  | vgists : List Gist → CacheVal
deriving DecidableEq

/-- Python truthiness of a cached value (`if not rate_limit_ok:`). -/
def truthyVal : CacheVal → Bool
  | CacheVal.vbool b => b
  | CacheVal.vrepos l => !l.isEmpty
  | CacheVal.vgists l => !l.isEmpty

/-- The cache backend, as the key-value store the `CacheManagerSingleton`
wraps (TTLs are bookkeeping the claims do not touch and are dropped). -/
def Cache : Type := List (String × CacheVal)

/-- `CacheManagerSingleton.get`. -/
def cacheGet (c : Cache) (key : String) : Option CacheVal :=
  (List.find? (fun p => p.1 == key) c).map (fun p => p.2)

/-- `CacheManagerSingleton.set`. -/
def cacheSet (c : Cache) (key : String) (v : CacheVal) : Cache :=
  (key, v) :: List.filter (fun p => !(p.1 == key)) c

/-- `CacheManagerSingleton.delete`. -/
def cacheDelete (c : Cache) (key : String) : Cache :=
  List.filter (fun p => !(p.1 == key)) c

/-- `CacheManagerSingleton.generate_cache_key`. -/
def generate_cache_key (pre : String) (user_id : Nat) : String :=
  pre ++ ":" ++ toString user_id

/-- `CacheManagerSingleton.invalidate_user_cache`: with a truthy
prefix argument, delete exactly that key; otherwise delete the keys for
the hard-coded prefix list `['repos', 'profile', 'followers',
'following', 'rate_limit']`. -/
def invalidate_user_cache (c : Cache) (user_id : Nat) (pre : Option String) :
    Cache :=
  if pyOptStrTruthy pre then
    cacheDelete c (generate_cache_key (pre.getD "") user_id)
  else
    ["repos", "profile", "followers", "following", "rate_limit"].foldl
      (fun acc p => cacheDelete acc (generate_cache_key p user_id)) c

/-- `RepositoryController._check_rate_limit`.  `upstream` is the outcome
of `Github(access_token).get_rate_limit()` (`.ok remaining` on success).
On a cache miss the gate computes `remaining >= 100`, caches it for 60s
and returns it; on an upstream error it returns `True` without caching. -/
def repoCheckRateLimit (c : Cache) (user_id : Nat)
    (upstream : Except Unit Int) : CacheVal × Cache :=
  let key := generate_cache_key "rate_limit" user_id
  match cacheGet c key with
  | some v => (v, c)
  | none =>
    match upstream with
    | Except.ok remaining =>
      let ok := decide (100 ≤ remaining)
      (CacheVal.vbool ok, cacheSet c key (CacheVal.vbool ok))
    | Except.error _ => (CacheVal.vbool true, c)

/-- `GistController._check_rate_limit`: same shape, threshold
`remaining > 10`, cached for 300s. -/
def gistCheckRateLimit (c : Cache) (user_id : Nat)
    (upstream : Except Unit Int) : CacheVal × Cache :=
  let key := generate_cache_key "rate_limit" user_id
  match cacheGet c key with
  | some v => (v, c)
  | none =>
    match upstream with
    | Except.ok remaining =>
      let ok := decide (10 < remaining)
      (CacheVal.vbool ok, cacheSet c key (CacheVal.vbool ok))
    | Except.error _ => (CacheVal.vbool true, c)

/-- Outcome of the `/api/repositories` endpoint, as far as the claims
need it: 429, 200 with the paginated items, or 500 (any exception inside
the `try` block). -/
inductive RepoResponse where
  | rateLimited : RepoResponse
  | ok : List Repository → PaginationInfo → RepoResponse
  | serverError : RepoResponse
deriving DecidableEq

/-- Outcome of the `/api/gists` endpoint. -/
inductive GistResponse where
  | rateLimited : GistResponse
  | ok : List Gist → PaginationInfo → GistResponse
  | serverError : GistResponse
deriving DecidableEq

/-- `RepositoryController.repositories` after successful authentication.
`upstream` feeds the rate-limit check; `fetched` is the collection the
service-layer fetch (`get_all_repositories`) would deliver on a cache
miss.  The cached value for `repos_raw:{user_id}` is the raw collection
(stored as dicts, rebuilt into `Repository` objects on every hit — the
round trip through `to_dict`/`from_api_data` is the identity on the
fields, so the model keeps `List Repository`).  A cached value of an
unexpected shape makes the rebuild raise, hence 500. -/
def repositories_endpoint (c : Cache) (user_id : Nat)
    (upstream : Except Unit Int) (fetched : List Repository) (sort : String)
    (search : String) (page per_page_arg : Int) (table_sort : Option String)
    (table_sort_direction : String) : RepoResponse × Cache :=
  let search_query := pyStrip search
  let per_page := min per_page_arg 100
  let rlc := repoCheckRateLimit c user_id upstream
  if !(truthyVal rlc.1) then (RepoResponse.rateLimited, rlc.2)
  else
    let key := generate_cache_key "repos_raw" user_id
    let hit :=
      match cacheGet rlc.2 key with
      | some (CacheVal.vrepos data) => (some data, rlc.2)
      | some _ => (none, rlc.2)
      | none => (some fetched, cacheSet rlc.2 key (CacheVal.vrepos fetched))
    match hit.1 with
    | none => (RepoResponse.serverError, hit.2)
    | some repositories =>
      let repositories1 :=
        if search_query ≠ "" then
          filter_repositories repositories (some search_query)
        else repositories
      let repositories2 :=
        sort_repositories repositories1 sort table_sort table_sort_direction
      match paginate_repositories repositories2 page per_page with
      | some (items, info) => (RepoResponse.ok items info, hit.2)
      | none => (RepoResponse.serverError, hit.2)

/-- `GistController.gists` after successful authentication.  The cached
value for `gists_raw:{user_id}` is the list of `Gist` objects itself. -/
def gists_endpoint (c : Cache) (user_id : Nat) (upstream : Except Unit Int)
    (fetched : List Gist) (sort : String) (search : String)
    (page per_page_arg : Int) (table_sort : Option String)
    (table_sort_direction : String) : GistResponse × Cache :=
  let search_query := pyStrip search
  let per_page := min per_page_arg 100
  let rlc := gistCheckRateLimit c user_id upstream
  if !(truthyVal rlc.1) then (GistResponse.rateLimited, rlc.2)
  else
    let key := generate_cache_key "gists_raw" user_id
    let hit :=
      match cacheGet rlc.2 key with
      | some (CacheVal.vgists data) => (some data, rlc.2)
      | some _ => (none, rlc.2)
      | none => (some fetched, cacheSet rlc.2 key (CacheVal.vgists fetched))
    match hit.1 with
    | none => (GistResponse.serverError, hit.2)
    | some gists =>
      let gists1 :=
        if search_query ≠ "" then filter_gists gists (some search_query)
        else gists
      let gists2 := sort_gists gists1 sort table_sort table_sort_direction
      match paginate_gists gists2 page per_page with
      | some (items, info) => (GistResponse.ok items info, hit.2)
      | none => (GistResponse.serverError, hit.2)

/-- `RepositoryRepository.fetch_repos_page`: the HTTP call is `httpResult`;
any failure is absorbed into an empty page. -/
def fetch_repos_page {ρ : Type} (httpResult : Except Unit (List ρ)) : List ρ :=
  match httpResult with
  | Except.ok d => d
  | Except.error _ => []

/-- `GistRepository.fetch_gists_page`: identical absorb-to-empty shape. -/
def fetch_gists_page {γ : Type} (httpResult : Except Unit (List γ)) : List γ :=
  match httpResult with
  | Except.ok d => d
  | Except.error _ => []

/-- Number of pages `RepositoryRepository.get_all_repositories` dispatches:
`ceil(min(total, max_repos) / 100)`. -/
def repoNumPages (totalRepos maxRepos : Nat) : Nat :=
  (min totalRepos maxRepos + 100 - 1) / 100

/-- `RepositoryRepository.get_all_repositories`.  `pageHttp p` is the HTTP
outcome for page `p`; `deliveredPages` is the order in which
`as_completed` yields the page futures (a permutation of
`[1..repoNumPages]` in any real run); the raw pages are concatenated in
that order.  `convert i` is the outcome of `Repository.from_api_data` on
buffer item `i` (`none` when it raised), and `deliveredItems` is the
completion order of the conversion futures.  Every per-page and per-item
failure is absorbed; the function returns whatever survived — it never
raises, even when everything failed. -/
def get_all_repositories {ρ : Type} (totalRepos maxRepos : Nat)
    (pageHttp : Nat → Except Unit (List ρ)) (deliveredPages : List Nat)
    (convert : ρ → Option Repository) (deliveredItems : List Nat) :
    List Repository :=
  let _num_pages := repoNumPages totalRepos maxRepos
  let all_repo_data :=
    (deliveredPages.map (fun p => fetch_repos_page (pageHttp p))).flatten
  deliveredItems.filterMap (fun i => (all_repo_data[i]?).bind convert)

/-- Number of pages `GistRepository.get_all_gists` dispatches. -/
def gistNumPages (totalGists maxGists : Nat) : Nat :=
  (min totalGists maxGists + 100 - 1) / 100

/-- `GistRepository.get_all_gists`: same collector, but with an early
empty return when `min(total, max_gists) == 0`. -/
def get_all_gists {γ : Type} (totalGists maxGists : Nat)
    (pageHttp : Nat → Except Unit (List γ)) (deliveredPages : List Nat)
    (convert : γ → Option Gist) (deliveredItems : List Nat) : List Gist :=
  let actual_limit := min totalGists maxGists
  if actual_limit = 0 then []
  else
    let all_gist_data :=
      (deliveredPages.map (fun p => fetch_gists_page (pageHttp p))).flatten
    deliveredItems.filterMap (fun i => (all_gist_data[i]?).bind convert)

/-- The sort keys `sort_repositories` recognises; anything else reaches
the final `else`. -/
def repoRecognisedSortKeys : List String :=
  ["name", "language", "stargazers_count", "stars", "forks_count", "forks",
   "size", "created_at", "created", "updated_at", "updated", "pushed_at",
   "pushed"]

/-- The sort keys `sort_gists` recognises. -/
def gistRecognisedSortKeys : List String :=
  ["description", "comments", "files", "public", "created_at", "created",
   "updated_at", "updated"]

/-- The default sort of the repository pipeline, as the spec states it:
last-updated timestamp, descending, absent values as the empty string. -/
def defaultSortRepositories (repositories : List Repository) :
    List Repository :=
  pySortKeyed repositories (fun r => r.updated_at.getD "") true

/-- The default sort of the gist pipeline, as the spec states it. -/
def defaultSortGists (gists : List Gist) : List Gist :=
  pySortKeyed gists (fun g => g.updated_at.getD "") true

/-- A concrete repository used by witnesses and counterexamples. -/
def sampleRepo : Repository :=
  { id := 1, name := "alpha", full_name := "octo/alpha" }

/-- A concrete gist used by witnesses and counterexamples. -/
def sampleGist : Gist :=
  { id := "g1" }

theorem cacheGet_cacheDelete (c : Cache) (k k' : String) :
    cacheGet (cacheDelete c k) k' = if k' = k then none else cacheGet c k' := by
  induction c with
  | nil => simp [cacheGet, cacheDelete]
  | cons hd tl ih =>
    unfold cacheGet cacheDelete at *
    by_cases h1 : hd.1 = k
    · rw [List.filter_cons_of_neg (by simp [h1])]
      rw [ih]
      by_cases h2 : k' = k
      · simp [h2]
      · rw [if_neg h2, if_neg h2,
          List.find?_cons_of_neg _ (by simp [h1]; exact fun hh => h2 hh.symm)]
    · rw [List.filter_cons_of_pos (by simp [h1])]
      by_cases h2 : hd.1 = k'
      · rw [List.find?_cons_of_pos _ (by simp [h2]),
          if_neg (fun hh => h1 (h2.trans hh)),
          List.find?_cons_of_pos _ (by simp [h2])]
      · rw [List.find?_cons_of_neg _ (by simp [h2]), ih]
        by_cases h3 : k' = k
        · simp [h3]
        · rw [if_neg h3, if_neg h3, List.find?_cons_of_neg _ (by simp [h2])]

theorem cacheGet_cacheSet (c : Cache) (k k' : String) (v : CacheVal) :
    cacheGet (cacheSet c k v) k' = if k' = k then some v else cacheGet c k' := by
  by_cases h : k' = k
  · rw [if_pos h]
    show Option.map _ (List.find? _ ((k, v) :: _)) = _
    rw [List.find?_cons_of_pos _ (by simp [h.symm])]
    rfl
  · rw [if_neg h]
    show Option.map _ (List.find? _ ((k, v) :: List.filter _ c)) = _
    rw [List.find?_cons_of_neg _ (by simp; exact fun hh => h hh.symm)]
    have := cacheGet_cacheDelete c k k'
    rw [if_neg h] at this
    exact this

theorem generate_cache_key_eq_iff (p1 p2 : String) (u : Nat) :
    generate_cache_key p1 u = generate_cache_key p2 u ↔ p1 = p2 := by
  constructor
  · intro he
    have hdata := congrArg String.data he
    simp only [generate_cache_key, String.data_append] at hdata
    have h2 : (p1.data ++ ":".data) ++ (toString u).data
        = (p2.data ++ ":".data) ++ (toString u).data := by
      simpa [List.append_assoc] using hdata
    exact String.ext (List.append_cancel_right (List.append_cancel_right h2))
  · intro h
    rw [h]

theorem paginateList_ok {α : Type} (l : List α) (page pp : Int) (h1 : 1 ≤ pp)
    (h2 : pp ≤ 100) :
    paginateList l page pp
      = some (pySlice l ((page - 1) * pp) ((page - 1) * pp + pp),
        { page := page
          per_page := pp
          total_count := (l.length : Int)
          total_pages :=
            if 0 < l.length then Int.fdiv ((l.length : Int) + pp - 1) pp else 1
          has_next := decide ((page - 1) * pp + pp < (l.length : Int))
          has_prev := decide (1 < page) }) := by
  have hmin : min pp 100 = pp := min_eq_left h2
  unfold paginateList
  rw [hmin]
  rw [if_neg (by rintro ⟨_, hz⟩; omega)]

theorem pySlice_drop_take {α : Type} (l : List α) (page pp : Int)
    (h0 : 1 ≤ page) (h1 : 1 ≤ pp) :
    pySlice l ((page - 1) * pp) ((page - 1) * pp + pp)
      = (l.drop ((page - 1) * pp).toNat).take pp.toNat := by
  have hs : 0 ≤ (page - 1) * pp := mul_nonneg (by omega) (by omega)
  have he : 0 ≤ (page - 1) * pp + pp := by omega
  unfold pySlice pyIndex
  rw [if_pos hs, if_pos he]
  have hE : ((page - 1) * pp + pp).toNat = ((page - 1) * pp).toNat + pp.toNat := by
    omega
  rw [hE]
  rcases le_or_lt l.length (((page - 1) * pp).toNat) with h | h
  · rw [min_eq_right h, min_eq_right (by omega)]
    simp [List.drop_eq_nil_of_le, h]
  · rw [min_eq_left (le_of_lt h)]
    apply List.take_eq_take.mpr
    rw [List.length_drop]
    omega

theorem paginate_items_length {α : Type} (l : List α) (page pp : Int)
    (h0 : 1 ≤ page) (h1 : 1 ≤ pp) :
    ((((l.drop ((page - 1) * pp).toNat).take pp.toNat).length : Nat) : Int)
      = max 0 (min pp ((l.length : Int) - (page - 1) * pp)) := by
  have hs : 0 ≤ (page - 1) * pp := mul_nonneg (by omega) (by omega)
  rw [List.length_take, List.length_drop]
  obtain ⟨m, hm, hm0⟩ : ∃ m : Int, (page - 1) * pp = m ∧ 0 ≤ m := ⟨_, rfl, hs⟩
  rw [hm]
  omega

theorem fdiv_cast_div (n : Nat) (pp : Int) (h1 : 1 ≤ pp) :
    Int.fdiv ((n : Int) + pp - 1) pp
      = (((n + pp.toNat - 1) / pp.toNat : Nat) : Int) := by
  obtain ⟨m, hm⟩ : ∃ m : Nat, (m : Int) = pp := ⟨pp.toNat, by omega⟩
  subst hm
  have hmt : ((m : Int)).toNat = m := by omega
  rw [hmt, Int.fdiv_eq_ediv _ (by omega)]
  rw [show ((n : Int) + (m : Int) - 1) = ((n + m - 1 : Nat) : Int) by omega]
  rw [← Int.natCast_div]

theorem paginateList_total_pages (n : Nat) (pp : Int) (h1 : 1 ≤ pp) :
    (if 0 < n then Int.fdiv ((n : Int) + pp - 1) pp else 1)
      = ((max 1 (n ⌈/⌉ pp.toNat) : Nat) : Int) := by
  by_cases hn : 0 < n
  · rw [if_pos hn, fdiv_cast_div n pp h1, Nat.ceilDiv_eq_add_pred_div]
    have hone : 1 ≤ (n + pp.toNat - 1) / pp.toNat := by
      rw [Nat.le_div_iff_mul_le (by omega)]
      omega
    obtain ⟨d, hd⟩ : ∃ d, (n + pp.toNat - 1) / pp.toNat = d := ⟨_, rfl⟩
    rw [hd]
    rw [hd] at hone
    omega
  · rw [if_neg hn]
    have hn0 : n = 0 := by omega
    subst hn0
    simp

theorem nat_lt_ceil_iff (P m n : Nat) (hm : 1 ≤ m) (hn : 1 ≤ n) :
    P * m < n ↔ P < (n + m - 1) / m := by
  have key : (n + m - 1) / m = (n - 1) / m + 1 := by
    rw [show n + m - 1 = (n - 1) + 1 * m by omega]
    rw [Nat.add_mul_div_right _ _ (by omega : 0 < m)]
  rw [key]
  constructor
  · intro hlt
    have h2 : P ≤ (n - 1) / m := by
      rw [Nat.le_div_iff_mul_le (by omega)]
      omega
    omega
  · intro hlt
    have h2 : P ≤ (n - 1) / m := by omega
    have h3 : P * m ≤ n - 1 := (Nat.le_div_iff_mul_le (by omega)).mp h2
    omega

theorem paginateList_has_next (n : Nat) (page pp : Int) (h0 : 1 ≤ page)
    (h1 : 1 ≤ pp) :
    ((page - 1) * pp + pp < (n : Int))
      ↔ page < (if 0 < n then Int.fdiv ((n : Int) + pp - 1) pp else 1) := by
  obtain ⟨m, hm⟩ : ∃ m : Nat, (m : Int) = pp := ⟨pp.toNat, by omega⟩
  subst hm
  obtain ⟨P, hP⟩ : ∃ P : Nat, (P : Int) = page := ⟨page.toNat, by omega⟩
  subst hP
  have hm1 : 1 ≤ m := by omega
  have hP1 : 1 ≤ P := by omega
  have hL : ((P : Int) - 1) * m + m = ((P * m : Nat) : Int) := by
    push_cast
    ring
  rw [hL]
  by_cases hn : 0 < n
  · rw [if_pos hn, fdiv_cast_div n ((m : Nat) : Int) h1]
    have hmt : ((m : Int)).toNat = m := by omega
    rw [hmt, Nat.cast_lt, Nat.cast_lt]
    exact nat_lt_ceil_iff P m n hm1 hn
  · rw [if_neg hn]
    have hn0 : n = 0 := by omega
    subst hn0
    constructor
    · intro hlt
      have : (0 : Int) ≤ ((P * m : Nat) : Int) := by positivity
      omega
    · intro hlt
      omega

/-- C4: for every collection, page ≥ 1 and per_page ∈ [1,100], the paginate
stage succeeds and returns exactly the slice
`[(page-1)*per_page, (page-1)*per_page + per_page)` of its input in input
order, hence `max 0 (min per_page (total_count - (page-1)*per_page))`
items, with `total_count` the input length; this holds for the repository
and the gist pipeline alike. -/
theorem C4_paginate_returns_slice
    (repositories : List Repository) (gists : List Gist) (page per_page : Int)
    (hp : 1 ≤ page) (h1 : 1 ≤ per_page) (h2 : per_page ≤ 100) :
    (∃ items info,
      paginate_repositories repositories page per_page = some (items, info) ∧
      items = (repositories.drop ((page - 1) * per_page).toNat).take per_page.toNat ∧
      ((items.length : Nat) : Int)
        = max 0 (min per_page ((repositories.length : Int) - (page - 1) * per_page)) ∧
      info.total_count = (repositories.length : Int)) ∧
    (∃ items info,
      paginate_gists gists page per_page = some (items, info) ∧
      items = (gists.drop ((page - 1) * per_page).toNat).take per_page.toNat ∧
      ((items.length : Nat) : Int)
        = max 0 (min per_page ((gists.length : Int) - (page - 1) * per_page)) ∧
      info.total_count = (gists.length : Int)) := by
  constructor
  · refine ⟨_, _, paginateList_ok repositories page per_page h1 h2,
      pySlice_drop_take repositories page per_page hp h1, ?_, rfl⟩
    rw [pySlice_drop_take repositories page per_page hp h1]
    exact paginate_items_length repositories page per_page hp h1
  · refine ⟨_, _, paginateList_ok gists page per_page h1 h2,
      pySlice_drop_take gists page per_page hp h1, ?_, rfl⟩
    rw [pySlice_drop_take gists page per_page hp h1]
    exact paginate_items_length gists page per_page hp h1

/-- C4 witness at a concrete input. -/
theorem C4_paginate_returns_slice_witness :
    ∃ items info,
      paginate_repositories [sampleRepo] 1 30 = some (items, info) ∧
      items = ([sampleRepo].drop (((1 : Int) - 1) * 30).toNat).take (30 : Int).toNat ∧
      ((items.length : Nat) : Int)
        = max 0 (min 30 (([sampleRepo].length : Int) - ((1 : Int) - 1) * 30)) ∧
      info.total_count = (([sampleRepo].length : Nat) : Int) :=
  (C4_paginate_returns_slice [sampleRepo] [sampleGist] 1 30
    (by decide) (by decide) (by decide)).1

/-- C5: for every collection, page ≥ 1 and per_page ∈ [1,100], the
pagination info satisfies
`total_pages = max 1 (ceil (total_count / per_page))` (so at least 1 even
for an empty collection), `has_next ↔ page < total_pages` and
`has_prev ↔ page > 1`; for both pipelines. -/
theorem C5_pagination_info
    (repositories : List Repository) (gists : List Gist) (page per_page : Int)
    (hp : 1 ≤ page) (h1 : 1 ≤ per_page) (h2 : per_page ≤ 100) :
    (∃ items info,
      paginate_repositories repositories page per_page = some (items, info) ∧
      info.total_pages
        = ((max 1 (repositories.length ⌈/⌉ per_page.toNat) : Nat) : Int) ∧
      (info.has_next = true ↔ page < info.total_pages) ∧
      (info.has_prev = true ↔ 1 < page)) ∧
    (∃ items info,
      paginate_gists gists page per_page = some (items, info) ∧
      info.total_pages
        = ((max 1 (gists.length ⌈/⌉ per_page.toNat) : Nat) : Int) ∧
      (info.has_next = true ↔ page < info.total_pages) ∧
      (info.has_prev = true ↔ 1 < page)) := by
  constructor
  · refine ⟨_, _, paginateList_ok repositories page per_page h1 h2, ?_, ?_, ?_⟩
    · exact paginateList_total_pages repositories.length per_page h1
    · simp only [decide_eq_true_eq]
      exact paginateList_has_next repositories.length page per_page hp h1
    · simp only [decide_eq_true_eq]
  · refine ⟨_, _, paginateList_ok gists page per_page h1 h2, ?_, ?_, ?_⟩
    · exact paginateList_total_pages gists.length per_page h1
    · simp only [decide_eq_true_eq]
      exact paginateList_has_next gists.length page per_page hp h1
    · simp only [decide_eq_true_eq]

/-- C5 witness at a concrete input. -/
theorem C5_pagination_info_witness :
    ∃ items info,
      paginate_gists [sampleGist] 2 1 = some (items, info) ∧
      info.total_pages = ((max 1 ([sampleGist].length ⌈/⌉ (1 : Int).toNat) : Nat) : Int) ∧
      (info.has_next = true ↔ 2 < info.total_pages) ∧
      (info.has_prev = true ↔ 1 < (2 : Int)) :=
  (C5_pagination_info [sampleRepo] [sampleGist] 2 1
    (by decide) (by decide) (by decide)).2

/-- C1 counterexample: the paginate stage does not clamp `per_page` from
below.  With a requested `per_page` of 0 both pipelines run through and
report `per_page = 0` in the pagination info — not the claimed
`clamp(0,1,100) = 1`, and not a value in `[1,100]`. -/
theorem C1_counterexample :
    (paginate_repositories ([] : List Repository) 1 0).map (fun r => r.2.per_page)
      = some 0 ∧
    (paginate_gists ([] : List Gist) 1 0).map (fun r => r.2.per_page) = some 0 ∧
    ¬(1 ≤ (0 : Int) ∧ (0 : Int) ≤ 100) := by
  refine ⟨by decide, by decide, by decide⟩

/-- C1 as amended: the effective `per_page` is `min requested 100` — the
upper bound 100 is enforced but a requested value of 0 or below is used
as-is; it equals `clamp(requested,1,100)` only when the request is already
≥ 1.  On a non-empty collection a requested `per_page` of 0 makes the
stage raise a `ZeroDivisionError` (surfaced as a 500) instead of slicing. -/
theorem C1_amended_per_page_min
    (repositories : List Repository) (gists : List Gist) (page req : Int) :
    (∀ items info,
      paginate_repositories repositories page req = some (items, info) →
      info.per_page = min req 100 ∧
      (1 ≤ req → 1 ≤ info.per_page ∧ info.per_page ≤ 100)) ∧
    (∀ items info,
      paginate_gists gists page req = some (items, info) →
      info.per_page = min req 100 ∧
      (1 ≤ req → 1 ≤ info.per_page ∧ info.per_page ≤ 100)) ∧
    (0 < repositories.length → paginate_repositories repositories page 0 = none) ∧
    (0 < gists.length → paginate_gists gists page 0 = none) := by
  refine ⟨?_, ?_, ?_, ?_⟩
  · intro items info h
    simp only [paginate_repositories, paginateList] at h
    by_cases hc : (0 < repositories.length ∧ min req 100 = 0)
    · rw [if_pos hc] at h
      exact absurd h (by simp)
    · rw [if_neg hc] at h
      simp only [Option.some.injEq, Prod.mk.injEq] at h
      obtain ⟨_, hinfo⟩ := h
      subst hinfo
      refine ⟨rfl, fun hreq => ⟨?_, ?_⟩⟩
      · show 1 ≤ min req 100
        omega
      · show min req 100 ≤ 100
        omega
  · intro items info h
    simp only [paginate_gists, paginateList] at h
    by_cases hc : (0 < gists.length ∧ min req 100 = 0)
    · rw [if_pos hc] at h
      exact absurd h (by simp)
    · rw [if_neg hc] at h
      simp only [Option.some.injEq, Prod.mk.injEq] at h
      obtain ⟨_, hinfo⟩ := h
      subst hinfo
      refine ⟨rfl, fun hreq => ⟨?_, ?_⟩⟩
      · show 1 ≤ min req 100
        omega
      · show min req 100 ≤ 100
        omega
  · intro hlen
    simp only [paginate_repositories, paginateList]
    rw [if_pos ⟨hlen, by decide⟩]
  · intro hlen
    simp only [paginate_gists, paginateList]
    rw [if_pos ⟨hlen, by decide⟩]

/-- C1 amended witness at concrete inputs. -/
theorem C1_amended_per_page_min_witness :
    ({ page := 2, per_page := 30, total_count := 1, total_pages := 1,
       has_next := false, has_prev := true } : PaginationInfo).per_page
        = min 30 100 ∧
    paginate_repositories [sampleRepo] 1 0 = none := by
  constructor
  · exact (((C1_amended_per_page_min [sampleRepo] [sampleGist] 2 30).1 []
      { page := 2, per_page := 30, total_count := 1, total_pages := 1,
        has_next := false, has_prev := true } (by decide)).1)
  · exact (C1_amended_per_page_min [sampleRepo] [sampleGist] 1 0).2.2.1 (by decide)

/-- C6: filtering is idempotent — applying the filter stage twice with
the same query gives the same collection as applying it once, for both
pipelines. -/
theorem C6_filter_idempotent (repositories : List Repository)
    (gists : List Gist) (search_query : Option String) :
    filter_repositories (filter_repositories repositories search_query) search_query
      = filter_repositories repositories search_query ∧
    filter_gists (filter_gists gists search_query) search_query
      = filter_gists gists search_query := by
  constructor
  · unfold filter_repositories
    by_cases h : (!(pyOptStrTruthy search_query)
        || ((pyStrip (search_query.getD "")) == "")) = true
    · simp [h]
    · simp only [Bool.not_eq_true] at h
      simp [h, List.filter_filter]
  · unfold filter_gists
    by_cases h : (!(pyOptStrTruthy search_query)
        || ((pyStrip (search_query.getD "")) == "")) = true
    · simp [h]
    · simp only [Bool.not_eq_true] at h
      simp [h, List.filter_filter]

/-- C10: the filter stage returns a subsequence of its input — every
returned item occurs in the input, nothing is duplicated or invented, and
the relative input order is preserved; for both pipelines. -/
theorem C10_filter_sublist (repositories : List Repository)
    (gists : List Gist) (search_query : Option String) :
    (filter_repositories repositories search_query).Sublist repositories ∧
    (filter_gists gists search_query).Sublist gists := by
  constructor
  · unfold filter_repositories
    split
    · exact List.Sublist.refl _
    · exact List.filter_sublist _
  · unfold filter_gists
    split
    · exact List.Sublist.refl _
    · exact List.filter_sublist _

/-- C7: for any sort key that is not one of the recognised keys — whether
it arrives through `table_sort` or through the default `sort` parameter —
the sort stage does not error and returns the default sort (last-updated
timestamp descending, absent values as the empty string), for every value
of `table_sort_direction`; for both pipelines. -/
theorem C7_unrecognised_sort_key
    (repositories : List Repository) (gists : List Gist) (sort : String)
    (table_sort : Option String) (table_sort_direction : String) :
    ((if pyOptStrTruthy table_sort then table_sort.getD "" else sort)
        ∉ repoRecognisedSortKeys →
      sort_repositories repositories sort table_sort table_sort_direction
        = defaultSortRepositories repositories) ∧
    ((if pyOptStrTruthy table_sort then table_sort.getD "" else sort)
        ∉ gistRecognisedSortKeys →
      sort_gists gists sort table_sort table_sort_direction
        = defaultSortGists gists) := by
  constructor
  · intro h
    simp only [repoRecognisedSortKeys, List.mem_cons, List.not_mem_nil,
      or_false, not_or] at h
    obtain ⟨h1, h2, h3, h4, h5, h6, h7, h8, h9, h10, h11, h12, h13⟩ := h
    simp only [sort_repositories, defaultSortRepositories]
    rw [if_neg h1, if_neg h2, if_neg (not_or.mpr ⟨h3, h4⟩),
      if_neg (not_or.mpr ⟨h5, h6⟩), if_neg h7, if_neg (not_or.mpr ⟨h8, h9⟩),
      if_neg (not_or.mpr ⟨h10, h11⟩), if_neg (not_or.mpr ⟨h12, h13⟩)]
  · intro h
    simp only [gistRecognisedSortKeys, List.mem_cons, List.not_mem_nil,
      or_false, not_or] at h
    obtain ⟨h1, h2, h3, h4, h5, h6, h7, h8⟩ := h
    simp only [sort_gists, defaultSortGists]
    rw [if_neg h1, if_neg h2, if_neg h3, if_neg h4,
      if_neg (not_or.mpr ⟨h5, h6⟩), if_neg (not_or.mpr ⟨h7, h8⟩)]

/-- C7 witness: the unrecognised key `"bogus"`, passed as `table_sort`,
falls back to the default sort. -/
theorem C7_unrecognised_sort_key_witness :
    sort_repositories [sampleRepo] "updated" (some "bogus") "desc"
      = defaultSortRepositories [sampleRepo] ∧
    sort_gists [sampleGist] "updated" (some "bogus") "desc"
      = defaultSortGists [sampleGist] :=
  ⟨(C7_unrecognised_sort_key [sampleRepo] [sampleGist] "updated"
      (some "bogus") "desc").1 (by decide),
   (C7_unrecognised_sort_key [sampleRepo] [sampleGist] "updated"
      (some "bogus") "desc").2 (by decide)⟩

/-- C2 counterexample: `invalidate_user_cache` without a prefix only
deletes the prefixes `repos, profile, followers, following, rate_limit`.
The collection keys the controllers actually read — `repos_raw:{id}` and
`gists_raw:{id}` — survive the call, so `get` on them still returns the
cached collections instead of the claimed absent. -/
theorem C2_counterexample :
    cacheGet (invalidate_user_cache
        [("repos_raw:1", CacheVal.vrepos [sampleRepo]),
         ("gists_raw:1", CacheVal.vgists [sampleGist])] 1 none) "repos_raw:1"
      = some (CacheVal.vrepos [sampleRepo]) ∧
    cacheGet (invalidate_user_cache
        [("repos_raw:1", CacheVal.vrepos [sampleRepo]),
         ("gists_raw:1", CacheVal.vgists [sampleGist])] 1 none) "gists_raw:1"
      = some (CacheVal.vgists [sampleGist]) := by
  exact ⟨by decide, by decide⟩

/-- C2 as amended: `invalidate_user_cache(user_id)` with no prefix deletes
exactly the keys with the five hard-coded prefixes `repos, profile,
followers, following, rate_limit`; it does not touch the repository and
gist collection keys the controllers read (`repos_raw:{id}`,
`gists_raw:{id}`), whose cached values remain retrievable unchanged. -/
theorem C2_amended_invalidate (c : Cache) (user_id : Nat) :
    (∀ p ∈ (["repos", "profile", "followers", "following", "rate_limit"] :
        List String),
      cacheGet (invalidate_user_cache c user_id none)
        (generate_cache_key p user_id) = none) ∧
    cacheGet (invalidate_user_cache c user_id none)
        (generate_cache_key "repos_raw" user_id)
      = cacheGet c (generate_cache_key "repos_raw" user_id) ∧
    cacheGet (invalidate_user_cache c user_id none)
        (generate_cache_key "gists_raw" user_id)
      = cacheGet c (generate_cache_key "gists_raw" user_id) := by
  have hunfold : invalidate_user_cache c user_id none
      = cacheDelete (cacheDelete (cacheDelete (cacheDelete (cacheDelete c
          (generate_cache_key "repos" user_id))
          (generate_cache_key "profile" user_id))
          (generate_cache_key "followers" user_id))
          (generate_cache_key "following" user_id))
          (generate_cache_key "rate_limit" user_id) := by
    simp [invalidate_user_cache, pyOptStrTruthy]
  refine ⟨?_, ?_, ?_⟩
  · intro p hp
    simp only [List.mem_cons, List.not_mem_nil, or_false] at hp
    rw [hunfold]
    rcases hp with rfl | rfl | rfl | rfl | rfl <;>
      simp [cacheGet_cacheDelete, generate_cache_key_eq_iff]
  · rw [hunfold]
    simp [cacheGet_cacheDelete, generate_cache_key_eq_iff]
  · rw [hunfold]
    simp [cacheGet_cacheDelete, generate_cache_key_eq_iff]

/-- C2 amended witness at a concrete cache. -/
theorem C2_amended_invalidate_witness :
    cacheGet (invalidate_user_cache
        [("repos_raw:1", CacheVal.vrepos [sampleRepo])] 1 none)
      (generate_cache_key "repos" 1) = none ∧
    cacheGet (invalidate_user_cache
        [("repos_raw:1", CacheVal.vrepos [sampleRepo])] 1 none)
      (generate_cache_key "repos_raw" 1)
      = cacheGet [("repos_raw:1", CacheVal.vrepos [sampleRepo])]
          (generate_cache_key "repos_raw" 1) :=
  ⟨(C2_amended_invalidate [("repos_raw:1", CacheVal.vrepos [sampleRepo])] 1).1
      "repos" (by simp),
   (C2_amended_invalidate [("repos_raw:1", CacheVal.vrepos [sampleRepo])] 1).2.1⟩

theorem repositories_endpoint_not_rate_limited (c : Cache) (user_id : Nat)
    (upstream : Except Unit Int) (fetched : List Repository)
    (sort search : String) (page pp : Int) (ts : Option String) (tsd : String)
    (h : truthyVal (repoCheckRateLimit c user_id upstream).1 = true) :
    (repositories_endpoint c user_id upstream fetched sort search page pp
      ts tsd).1 ≠ RepoResponse.rateLimited := by
  simp only [repositories_endpoint, h, Bool.not_true, Bool.false_eq_true,
    if_false]
  split
  · simp
  · split
    · simp
    · simp

theorem gists_endpoint_not_rate_limited (c : Cache) (user_id : Nat)
    (upstream : Except Unit Int) (fetched : List Gist)
    (sort search : String) (page pp : Int) (ts : Option String) (tsd : String)
    (h : truthyVal (gistCheckRateLimit c user_id upstream).1 = true) :
    (gists_endpoint c user_id upstream fetched sort search page pp
      ts tsd).1 ≠ GistResponse.rateLimited := by
  simp only [gists_endpoint, h, Bool.not_true, Bool.false_eq_true, if_false]
  split
  · simp
  · split
    · simp
    · simp

/-- C9: on a rate-limit cache miss with a successful upstream status call,
both gates compute `ok = remaining > threshold` with a call-site threshold
inside [10,100] (99 for the repository controller's `remaining >= 100`,
10 for the gist controller's `remaining > 10`), cache the boolean and
return it; when the upstream status call fails, both gates return
`ok = true` without caching, and the endpoints therefore never answer 429
because the check itself failed. -/
theorem C9_rate_limit_gate (c : Cache) (user_id : Nat) (remaining : Int) :
    (cacheGet c (generate_cache_key "rate_limit" user_id) = none →
      (∃ t : Int, 10 ≤ t ∧ t ≤ 100 ∧
        repoCheckRateLimit c user_id (Except.ok remaining)
          = (CacheVal.vbool (decide (t < remaining)),
             cacheSet c (generate_cache_key "rate_limit" user_id)
               (CacheVal.vbool (decide (t < remaining))))) ∧
      (∃ t : Int, 10 ≤ t ∧ t ≤ 100 ∧
        gistCheckRateLimit c user_id (Except.ok remaining)
          = (CacheVal.vbool (decide (t < remaining)),
             cacheSet c (generate_cache_key "rate_limit" user_id)
               (CacheVal.vbool (decide (t < remaining)))))) ∧
    (cacheGet c (generate_cache_key "rate_limit" user_id) = none →
      repoCheckRateLimit c user_id (Except.error ())
        = (CacheVal.vbool true, c) ∧
      gistCheckRateLimit c user_id (Except.error ())
        = (CacheVal.vbool true, c) ∧
      (∀ fetched sort search page pp ts tsd,
        (repositories_endpoint c user_id (Except.error ()) fetched sort search
          page pp ts tsd).1 ≠ RepoResponse.rateLimited) ∧
      (∀ fetched sort search page pp ts tsd,
        (gists_endpoint c user_id (Except.error ()) fetched sort search
          page pp ts tsd).1 ≠ GistResponse.rateLimited)) := by
  constructor
  · intro hmiss
    constructor
    · refine ⟨99, by decide, by decide, ?_⟩
      have hd : decide (100 ≤ remaining) = decide (99 < remaining) :=
        decide_eq_decide.mpr (by omega)
      simp only [repoCheckRateLimit, hmiss, hd]
    · refine ⟨10, by decide, by decide, ?_⟩
      simp only [gistCheckRateLimit, hmiss]
  · intro hmiss
    have hrepo : repoCheckRateLimit c user_id (Except.error ())
        = (CacheVal.vbool true, c) := by
      simp only [repoCheckRateLimit, hmiss]
    have hgist : gistCheckRateLimit c user_id (Except.error ())
        = (CacheVal.vbool true, c) := by
      simp only [gistCheckRateLimit, hmiss]
    refine ⟨hrepo, hgist, ?_, ?_⟩
    · intro fetched sort search page pp ts tsd
      exact repositories_endpoint_not_rate_limited c user_id (Except.error ())
        fetched sort search page pp ts tsd (by rw [hrepo]; rfl)
    · intro fetched sort search page pp ts tsd
      exact gists_endpoint_not_rate_limited c user_id (Except.error ())
        fetched sort search page pp ts tsd (by rw [hgist]; rfl)

/-- C9 witness at a concrete empty cache. -/
theorem C9_rate_limit_gate_witness :
    (∃ t : Int, 10 ≤ t ∧ t ≤ 100 ∧
      repoCheckRateLimit [] 1 (Except.ok 250)
        = (CacheVal.vbool (decide (t < 250)),
           cacheSet [] (generate_cache_key "rate_limit" 1)
             (CacheVal.vbool (decide (t < 250))))) ∧
    repoCheckRateLimit [] 1 (Except.error ()) = (CacheVal.vbool true, []) :=
  ⟨((C9_rate_limit_gate [] 1 250).1 rfl).1,
   ((C9_rate_limit_gate [] 1 250).2 rfl).1⟩

theorem repoCheckRateLimit_preserves (c : Cache) (u : Nat)
    (up : Except Unit Int) (k : String)
    (h : k ≠ generate_cache_key "rate_limit" u) :
    cacheGet (repoCheckRateLimit c u up).2 k = cacheGet c k := by
  unfold repoCheckRateLimit
  rcases hg : cacheGet c (generate_cache_key "rate_limit" u) with _ | v
  · cases up with
    | ok remaining =>
      simp only [hg]
      rw [cacheGet_cacheSet, if_neg h]
    | error e => simp only [hg]
  · simp only [hg]

theorem gistCheckRateLimit_preserves (c : Cache) (u : Nat)
    (up : Except Unit Int) (k : String)
    (h : k ≠ generate_cache_key "rate_limit" u) :
    cacheGet (gistCheckRateLimit c u up).2 k = cacheGet c k := by
  unfold gistCheckRateLimit
  rcases hg : cacheGet c (generate_cache_key "rate_limit" u) with _ | v
  · cases up with
    | ok remaining =>
      simp only [hg]
      rw [cacheGet_cacheSet, if_neg h]
    | error e => simp only [hg]
  · simp only [hg]

/-- C8: a request served after a collection cache hit leaves the cached
collection untouched: the filter, sort and paginate stages operate on the
(de-serialised) value and nothing in the hit path writes the collection
key back, so the cache still yields the original value afterwards; for
both endpoints. -/
theorem C8_cache_hit_frame (c : Cache) (user_id : Nat)
    (upstream : Except Unit Int) (fetchedR : List Repository)
    (fetchedG : List Gist) (sort search : String) (page pp : Int)
    (ts : Option String) (tsd : String) (dR : List Repository)
    (dG : List Gist) :
    (cacheGet c (generate_cache_key "repos_raw" user_id)
        = some (CacheVal.vrepos dR) →
      cacheGet (repositories_endpoint c user_id upstream fetchedR sort search
          page pp ts tsd).2 (generate_cache_key "repos_raw" user_id)
        = some (CacheVal.vrepos dR)) ∧
    (cacheGet c (generate_cache_key "gists_raw" user_id)
        = some (CacheVal.vgists dG) →
      cacheGet (gists_endpoint c user_id upstream fetchedG sort search
          page pp ts tsd).2 (generate_cache_key "gists_raw" user_id)
        = some (CacheVal.vgists dG)) := by
  constructor
  · intro h
    have hk : generate_cache_key "repos_raw" user_id
        ≠ generate_cache_key "rate_limit" user_id := by
      intro he
      exact absurd ((generate_cache_key_eq_iff _ _ _).mp he) (by decide)
    have hpres : cacheGet (repoCheckRateLimit c user_id upstream).2
        (generate_cache_key "repos_raw" user_id)
        = some (CacheVal.vrepos dR) := by
      rw [repoCheckRateLimit_preserves c user_id upstream _ hk]
      exact h
    simp only [repositories_endpoint]
    split
    · exact hpres
    · simp only [hpres]
      split
      · exact hpres
      · exact hpres
  · intro h
    have hk : generate_cache_key "gists_raw" user_id
        ≠ generate_cache_key "rate_limit" user_id := by
      intro he
      exact absurd ((generate_cache_key_eq_iff _ _ _).mp he) (by decide)
    have hpres : cacheGet (gistCheckRateLimit c user_id upstream).2
        (generate_cache_key "gists_raw" user_id)
        = some (CacheVal.vgists dG) := by
      rw [gistCheckRateLimit_preserves c user_id upstream _ hk]
      exact h
    simp only [gists_endpoint]
    split
    · exact hpres
    · simp only [hpres]
      split
      · exact hpres
      · exact hpres

/-- C8 witness at a concrete cache with both collections cached. -/
theorem C8_cache_hit_frame_witness :
    cacheGet (repositories_endpoint
        [("repos_raw:1", CacheVal.vrepos [sampleRepo]),
         ("gists_raw:1", CacheVal.vgists [sampleGist])] 1 (Except.ok 500) []
        "updated" "" 1 30 none "asc").2
      (generate_cache_key "repos_raw" 1) = some (CacheVal.vrepos [sampleRepo]) :=
  (C8_cache_hit_frame
    [("repos_raw:1", CacheVal.vrepos [sampleRepo]),
     ("gists_raw:1", CacheVal.vgists [sampleGist])] 1 (Except.ok 500) [] []
    "updated" "" 1 30 none "asc" [sampleRepo] [sampleGist]).1 (by decide)

theorem pySortKeyed_nil {α K : Type} [LinearOrder K] (key : α → K)
    (reverse : Bool) : pySortKeyed [] key reverse = [] := by
  unfold pySortKeyed
  split
  · exact List.mergeSort_nil
  · exact List.mergeSort_nil

theorem sort_repositories_nil (sort : String) (ts : Option String)
    (tsd : String) : sort_repositories [] sort ts tsd = [] := by
  simp only [sort_repositories, pySortKeyed_nil, ite_self]

theorem sort_gists_nil (sort : String) (ts : Option String) (tsd : String) :
    sort_gists [] sort ts tsd = [] := by
  simp only [sort_gists, pySortKeyed_nil, ite_self]

theorem pySlice_nil {α : Type} (a b : Int) : pySlice ([] : List α) a b = [] := by
  simp [pySlice]

theorem repositories_endpoint_empty_ok (c : Cache) (u : Nat)
    (up : Except Unit Int) (sort : String) (ts : Option String) (tsd : String)
    (page pp : Int)
    (hrl : cacheGet c (generate_cache_key "rate_limit" u)
      = some (CacheVal.vbool true))
    (hmiss : cacheGet c (generate_cache_key "repos_raw" u) = none)
    (h1 : 1 ≤ pp) (h2 : pp ≤ 100) :
    (repositories_endpoint c u up [] sort "" page pp ts tsd).1
      = RepoResponse.ok []
        { page := page, per_page := pp, total_count := 0, total_pages := 1,
          has_next := decide ((page - 1) * pp + pp < (0 : Int)),
          has_prev := decide (1 < page) } := by
  have hchk : repoCheckRateLimit c u up = (CacheVal.vbool true, c) := by
    simp only [repoCheckRateLimit, hrl]
  have hpag := paginateList_ok ([] : List Repository) page pp h1 h2
  rw [pySlice_nil] at hpag
  simp only [repositories_endpoint, hchk, hmiss, truthyVal, Bool.not_true,
    Bool.false_eq_true, if_false, min_eq_left h2]
  rw [show (pyStrip "" : String) = "" from rfl]
  rw [if_neg (by simp)]
  rw [sort_repositories_nil]
  simp only [paginate_repositories] at hpag ⊢
  rw [hpag]
  simp

theorem gists_endpoint_empty_ok (c : Cache) (u : Nat)
    (up : Except Unit Int) (sort : String) (ts : Option String) (tsd : String)
    (page pp : Int)
    (hrl : cacheGet c (generate_cache_key "rate_limit" u)
      = some (CacheVal.vbool true))
    (hmiss : cacheGet c (generate_cache_key "gists_raw" u) = none)
    (h1 : 1 ≤ pp) (h2 : pp ≤ 100) :
    (gists_endpoint c u up [] sort "" page pp ts tsd).1
      = GistResponse.ok []
        { page := page, per_page := pp, total_count := 0, total_pages := 1,
          has_next := decide ((page - 1) * pp + pp < (0 : Int)),
          has_prev := decide (1 < page) } := by
  have hchk : gistCheckRateLimit c u up = (CacheVal.vbool true, c) := by
    simp only [gistCheckRateLimit, hrl]
  have hpag := paginateList_ok ([] : List Gist) page pp h1 h2
  rw [pySlice_nil] at hpag
  simp only [gists_endpoint, hchk, hmiss, truthyVal, Bool.not_true,
    Bool.false_eq_true, if_false, min_eq_left h2]
  rw [show (pyStrip "" : String) = "" from rfl]
  rw [if_neg (by simp)]
  rw [sort_gists_nil]
  simp only [paginate_gists] at hpag ⊢
  rw [hpag]
  simp

theorem get_all_repositories_all_fail {ρ : Type} (totalR maxR : Nat)
    (pageHttp : Nat → Except Unit (List ρ)) (dp : List Nat)
    (conv : ρ → Option Repository) (di : List Nat)
    (h : ∀ p, pageHttp p = Except.error ()) :
    get_all_repositories totalR maxR pageHttp dp conv di = [] := by
  simp only [get_all_repositories]
  have hflat : (dp.map (fun p => fetch_repos_page (pageHttp p))).flatten
      = ([] : List ρ) := by
    induction dp with
    | nil => rfl
    | cons a t ih =>
      simp only [List.map_cons, List.flatten_cons, h a, fetch_repos_page,
        List.nil_append]
      exact ih
  rw [hflat]
  induction di with
  | nil => rfl
  | cons a t ih => simp [ih]

theorem get_all_gists_all_fail {γ : Type} (totalG maxG : Nat)
    (pageHttp : Nat → Except Unit (List γ)) (dp : List Nat)
    (conv : γ → Option Gist) (di : List Nat)
    (h : ∀ p, pageHttp p = Except.error ()) :
    get_all_gists totalG maxG pageHttp dp conv di = [] := by
  simp only [get_all_gists]
  split
  · rfl
  · have hflat : (dp.map (fun p => fetch_gists_page (pageHttp p))).flatten
        = ([] : List γ) := by
      induction dp with
      | nil => rfl
      | cons a t ih =>
        simp only [List.map_cons, List.flatten_cons, h a, fetch_gists_page,
          List.nil_append]
        exact ih
    rw [hflat]
    induction di with
    | nil => rfl
    | cons a t ih => simp [ih]

/-- C3 counterexample: with a positive total estimate (150 → 2 pages) and
every page fetch failing, `get_all_repositories` returns the empty list by
a normal return — no aggregate failure is raised — and the endpoint turns
it into a 200 success with an empty items list, not a 500.  The gist
collector behaves the same. -/
theorem C3_counterexample :
    get_all_repositories 150 2000
        (fun _ => (Except.error () : Except Unit (List Unit))) [2, 1]
        (fun _ => (none : Option Repository)) [] = [] ∧
    (repositories_endpoint
        [(generate_cache_key "rate_limit" 1, CacheVal.vbool true)] 1
        (Except.ok 500)
        (get_all_repositories 150 2000
          (fun _ => (Except.error () : Except Unit (List Unit))) [2, 1]
          (fun _ => (none : Option Repository)) [])
        "updated" "" 1 30 none "asc").1
      = RepoResponse.ok []
        { page := 1, per_page := 30, total_count := 0, total_pages := 1,
          has_next := false, has_prev := false } ∧
    get_all_gists 150 1000
        (fun _ => (Except.error () : Except Unit (List Unit))) [2, 1]
        (fun _ => (none : Option Gist)) [] = [] := by
  have hempty : get_all_repositories 150 2000
      (fun _ => (Except.error () : Except Unit (List Unit))) [2, 1]
      (fun _ => (none : Option Repository)) [] = [] := rfl
  refine ⟨hempty, ?_, rfl⟩
  rw [hempty]
  have h := repositories_endpoint_empty_ok
    [(generate_cache_key "rate_limit" 1, CacheVal.vbool true)] 1
    (Except.ok 500) "updated" none "asc" 1 30 (by decide) (by decide)
    (by decide) (by decide)
  exact h.trans (by decide)

/-- C3 as amended: when the upstream total estimate is positive but every
page fetch fails, the collectors absorb all failures and return the empty
collection as an ordinary result; the endpoints then serve a 200 success
with an empty items list (`total_count = 0`, `total_pages = 1`) instead of
surfacing an aggregate failure as a 500. -/
theorem C3_amended_empty_success {ρ γ : Type} (totalR maxR totalG maxG : Nat)
    (pageHttpR : Nat → Except Unit (List ρ)) (dpR : List Nat)
    (convR : ρ → Option Repository) (diR : List Nat)
    (pageHttpG : Nat → Except Unit (List γ)) (dpG : List Nat)
    (convG : γ → Option Gist) (diG : List Nat)
    (hR : ∀ p, pageHttpR p = Except.error ())
    (hG : ∀ p, pageHttpG p = Except.error ()) :
    get_all_repositories totalR maxR pageHttpR dpR convR diR = [] ∧
    get_all_gists totalG maxG pageHttpG dpG convG diG = [] ∧
    (∀ (c : Cache) (u : Nat) (up : Except Unit Int) (sort : String)
        (ts : Option String) (tsd : String) (page pp : Int),
      cacheGet c (generate_cache_key "rate_limit" u)
        = some (CacheVal.vbool true) →
      cacheGet c (generate_cache_key "repos_raw" u) = none →
      1 ≤ pp → pp ≤ 100 →
      (repositories_endpoint c u up
          (get_all_repositories totalR maxR pageHttpR dpR convR diR)
          sort "" page pp ts tsd).1
        = RepoResponse.ok []
          { page := page, per_page := pp, total_count := 0, total_pages := 1,
            has_next := decide ((page - 1) * pp + pp < (0 : Int)),
            has_prev := decide (1 < page) }) ∧
    (∀ (c : Cache) (u : Nat) (up : Except Unit Int) (sort : String)
        (ts : Option String) (tsd : String) (page pp : Int),
      cacheGet c (generate_cache_key "rate_limit" u)
        = some (CacheVal.vbool true) →
      cacheGet c (generate_cache_key "gists_raw" u) = none →
      1 ≤ pp → pp ≤ 100 →
      (gists_endpoint c u up
          (get_all_gists totalG maxG pageHttpG dpG convG diG)
          sort "" page pp ts tsd).1
        = GistResponse.ok []
          { page := page, per_page := pp, total_count := 0, total_pages := 1,
            has_next := decide ((page - 1) * pp + pp < (0 : Int)),
            has_prev := decide (1 < page) }) := by
  have hR0 := get_all_repositories_all_fail totalR maxR pageHttpR dpR convR diR hR
  have hG0 := get_all_gists_all_fail totalG maxG pageHttpG dpG convG diG hG
  refine ⟨hR0, hG0, ?_, ?_⟩
  · intro c u up sort ts tsd page pp hrl hmiss h1 h2
    rw [hR0]
    exact repositories_endpoint_empty_ok c u up sort ts tsd page pp hrl hmiss h1 h2
  · intro c u up sort ts tsd page pp hrl hmiss h1 h2
    rw [hG0]
    exact gists_endpoint_empty_ok c u up sort ts tsd page pp hrl hmiss h1 h2

/-- C3 amended witness at concrete inputs. -/
theorem C3_amended_empty_success_witness :
    get_all_repositories 150 2000
        (fun _ => (Except.error () : Except Unit (List Unit))) [1]
        (fun _ => (none : Option Repository)) [] = [] ∧
    (repositories_endpoint
        [(generate_cache_key "rate_limit" 1, CacheVal.vbool true)] 1
        (Except.ok 0)
        (get_all_repositories 150 2000
          (fun _ => (Except.error () : Except Unit (List Unit))) [1]
          (fun _ => (none : Option Repository)) [])
        "updated" "" 1 30 none "asc").1
      = RepoResponse.ok []
        { page := 1, per_page := 30, total_count := 0, total_pages := 1,
          has_next := decide (((1 : Int) - 1) * 30 + 30 < (0 : Int)),
          has_prev := decide ((1 : Int) < 1) } := by
  have h := C3_amended_empty_success 150 2000 150 1000
    (fun _ => (Except.error () : Except Unit (List Unit))) [1]
    (fun _ => (none : Option Repository)) []
    (fun _ => (Except.error () : Except Unit (List Unit))) [1]
    (fun _ => (none : Option Gist)) []
    (fun _ => rfl) (fun _ => rfl)
  exact ⟨h.1, h.2.2.1 _ 1 (Except.ok 0) "updated" none "asc" 1 30
    (by decide) (by decide) (by decide) (by decide)⟩
